import Mathlib

/-!
Shallow embedding of the QR-code attendance subsystem of the `2002`
attendance-tracker repository: the data model (`src/models/QRCode.js`,
`src/models/Attendance.js`, the Lecture schema), the service operations
(`src/services/qrCodeService.js`: `generateQRCode`, `validateQRCode`,
`recordAttendance`, `deactivateQRCode`), and the manual status-override
route (`src/routes/lecturer.js`, `PUT /attendance/:id/status`).

Times are integer milliseconds since the epoch (JS `Date.getTime()`).
The MongoDB document store is modelled as lists of documents; `findOne`
is `List.find?`, a `save` of an existing document replaces the stored
document with the same id, and the unique compound index on
`(studentId, lectureId)` makes a duplicate insert fail with a duplicate
key error.
-/

namespace AttendanceQR

/-- One minute in milliseconds (JS `60000`). -/
def MIN : Int := 60000

/-- One hour in milliseconds. -/
def HOUR : Int := 3600000

/-- `status` enum of the Attendance schema. -/
inductive Status
  | present
  | late
  | absent
  | excused
deriving DecidableEq, Repr

/-- Lecture document (the Lecture schema: owner, schedule as a calendar
date plus HH:MM strings, venue, capacity, counters, soft-delete flag). -/
structure Lecture where
  id : Nat
  lecturerId : Nat
  lecturerName : String
  unitName : String
  unitCode : String
  date : Int
  startTime : String
  endTime : String
  venue : String
  qrCodeId : Option Nat
  status : String
  attendanceCount : Nat
  totalStudents : Nat
  isActive : Bool
deriving DecidableEq, Repr

/-- QRCode document (`src/models/QRCode.js`). -/
structure QRCodeDoc where
  id : Nat
  lectureId : Nat
  uniqueCode : String
  expiresAt : Int
  isActive : Bool
  scanCount : Nat
  maxScans : Nat
deriving DecidableEq, Repr

/-- Attendance document (`src/models/Attendance.js`). Schema defaults:
`status = present`, `isVerified = true`. -/
structure AttendanceDoc where
  id : Nat
  studentId : Nat
  lectureId : Nat
  qrCodeId : Nat
  scanTime : Int
  status : Status
  isVerified : Bool
  notes : String
  deviceInfo : String
deriving DecidableEq, Repr

/-- The document store: one collection per model. -/
structure DB where
  lectures : List Lecture
  qrcodes : List QRCodeDoc
  attendances : List AttendanceDoc
deriving DecidableEq, Repr

/-- JS error values as observed by callers. `validation` is a mongoose
ValidationError (`err.name === ValidationError`), `mongoDuplicate` a
MongoDB duplicate key error (`err.code === 11000`), `cast` a mongoose
CastError raised when a filter operand fails the schema-type cast,
`generic` a plain `new Error(msg)` carrying nothing but its message. -/
inductive JsError
  | validation (msg : String)
  | mongoDuplicate (msg : String)
  | cast (msg : String)
  | generic (msg : String)
deriving DecidableEq, Repr

/-- `err.message`. -/
def JsError.message : JsError → String
  | .validation m => m
  | .mongoDuplicate m => m
  | .cast m => m
  | .generic m => m

/-! ### HH:MM parsing and wall-clock arithmetic -/

/-- `String.split` on the colon character, on an explicit char list. -/
def splitColon : List Char → List (List Char)
  | [] => [[]]
  | c :: rest =>
    let r := splitColon rest
    if c = ':' then [] :: r
    else
      match r with
      | g :: gs => (c :: g) :: gs
      | [] => [[c]]

/-- Numeric value of a decimal digit character. -/
def digitVal (c : Char) : Nat := c.toNat - 48

/-- JS numeric coercion of a digit string (as used by `setHours`). -/
def digitsToNat (cs : List Char) : Nat :=
  cs.foldl (fun n c => 10 * n + digitVal c) 0

/-- `time.split(':')` followed by numeric coercion of the first two
components, as in `setHours(parts[0], parts[1], 0, 0)`. -/
def hmOf (s : String) : Nat × Nat :=
  match splitColon s.toList with
  | h :: m :: _ => (digitsToNat h, digitsToNat m)
  | _ => (0, 0)

/-- `lectureStart`: the lecture date with hours and minutes set from the
`startTime` string (`new Date(lecture.date)` + `setHours`). `date` is
taken to be the midnight instant of the calendar date. -/
def lectureStartMs (lec : Lecture) : Int :=
  lec.date + HOUR * ((hmOf lec.startTime).1 : Int) + MIN * ((hmOf lec.startTime).2 : Int)

/-- `lectureEnd`, analogously from `endTime`. -/
def lectureEndMs (lec : Lecture) : Int :=
  lec.date + HOUR * ((hmOf lec.endTime).1 : Int) + MIN * ((hmOf lec.endTime).2 : Int)

/-! ### Time-format validation (Lecture schema `match` regex) -/

/-- The hour alternative of the schema regex
`([0-1]?[0-9]|2[0-3])`: one digit, or two digits whose first is 0 or 1,
or 2 followed by 0..3. -/
def validHourChars : List Char → Bool
  | [c] => c.isDigit
  | [a, b] => ((a = '0' || a = '1') && b.isDigit) || (a = '2' && ('0' ≤ b && b ≤ '3'))
  | _ => false

/-- The minute part of the schema regex `[0-5][0-9]`. -/
def validMinuteChars : List Char → Bool
  | [a, b] => ('0' ≤ a && a ≤ '5') && b.isDigit
  | _ => false

/-- Whether a time string matches the anchored Lecture schema regex
for `startTime` and `endTime`. -/
def validTime (s : String) : Bool :=
  match splitColon s.toList with
  | [h, m] => validHourChars h && validMinuteChars m
  | _ => false

/-! ### The broken exhaustion clause of the validation query

The `findOne` filter in `validateQRCode` contains
`scanCount: { $lt: '$maxScans' }`. In a plain find filter the operand
of `$lt` is a literal value, not a field reference, so this clause can
never compare the two fields. Under real mongoose semantics the string
operand is cast against the `Number` schema path `scanCount`, the cast
fails, and the whole `findOne` rejects with a CastError before any
document is examined — see `findQRMongoose` below, which embeds that
behaviour and grounds the claims about what the program actually does
on a scan.

For the token-budget invariant we additionally keep an
*over-approximating* model, `qrQueryMatch`/`findQR`/`validateQRCode`,
in which the broken clause is taken as never filtering anything out:
this model admits every scan the query could conceivably admit (the
real program admits none), so an invariant preserved over it covers
the program a fortiori. -/

/-- Mongoose cast of a string find-filter operand against a `Number`
schema path: a nonempty all-digit string casts to its numeric value and
anything else fails. The operand of the broken exhaustion clause is the
literal `"$maxScans"`, which is not numeric. -/
def castToNumber (s : String) : Option Int :=
  if !s.toList.isEmpty && s.toList.all (fun c => c.isDigit) then
    some ((digitsToNat s.toList : Nat) : Int)
  else none

/-- The CastError message the model attaches to the failed cast. -/
def castErrorMsg : String :=
  "Cast to Number failed for value $maxScans (type string) at path scanCount for model QRCode"

/-- Result of `validateQRCode`: `{valid:false, message}` or
`{valid:true, qrCode, lecture}` carrying the two document snapshots. -/
inductive ValidationResult
  | reject (message : String)
  | accept (qrCode : QRCodeDoc) (lecture : Lecture)
deriving DecidableEq, Repr

/-- `QRCodeModel.findOne` with the validation filter, under mongoose
semantics: every filter operand is cast against the schema before the
query runs; `"$maxScans"` fails the `Number` cast, so the call rejects
with a CastError and touches no document. Were every operand to cast,
the filter would compare `scanCount` against the cast bound. (Raw
MongoDB type-bracketed comparison would instead match no document —
either way the query never returns a token.) -/
def findQRMongoose (db : DB) (code : String) (now : Int) : Except JsError (Option QRCodeDoc) :=
  match castToNumber "$maxScans" with
  | none => .error (.cast castErrorMsg)
  | some bound =>
    .ok (db.qrcodes.find? (fun q =>
      q.uniqueCode == code && q.isActive && decide (now < q.expiresAt)
        && decide ((q.scanCount : Int) < bound)))

/-- The filter of the `findOne` in `validateQRCode`, as the
over-approximating model takes it: the `uniqueCode`, `isActive` and
`expiresAt` clauses behave as written, and the broken exhaustion clause
is modelled as never filtering. This deliberately enlarges the admitted
set relative to the program (which admits nothing, the query failing
with a CastError first); it is used only to bound the admissible
behaviours for the budget invariant. -/
def qrQueryMatch (q : QRCodeDoc) (code : String) (now : Int) : Bool :=
  q.uniqueCode == code && q.isActive && decide (now < q.expiresAt)

/-- `QRCodeModel.findOne` with the validation filter, in the
over-approximating model. -/
def findQR (db : DB) (code : String) (now : Int) : Option QRCodeDoc :=
  db.qrcodes.find? (fun q => qrQueryMatch q code now)

/-- `Lecture.findById` / `populate('lectureId')`. -/
def findLecture (db : DB) (lectureId : Nat) : Option Lecture :=
  db.lectures.find? (fun l => l.id == lectureId)

/-- `Attendance.findOne({ studentId, lectureId })`. -/
def findAttendanceByStudentLecture (db : DB) (studentId lectureId : Nat) : Option AttendanceDoc :=
  db.attendances.find? (fun a => a.studentId == studentId && a.lectureId == lectureId)

/-- `QRCodeService.validateQRCode(code, studentId)` at instant `now`,
in the over-approximating model (see the section comment above; the
faithful mongoose behaviour is `validateQRCodeMongoose`). The second
component is the store after the call; the function only performs
reads, so every branch returns the store it was given. -/
def validateQRCode (db : DB) (code : String) (studentId : Nat) (now : Int) :
    ValidationResult × DB :=
  match findQR db code now with
  | none => (.reject "QR code is invalid, expired, or has reached maximum scans", db)
  | some qrCode =>
    match findLecture db qrCode.lectureId with
    | none => (.reject "Lecture is not available", db)
    | some lecture =>
      if !lecture.isActive then
        (.reject "Lecture is not available", db)
      else
        match findAttendanceByStudentLecture db studentId lecture.id with
        | some _ => (.reject "Attendance already marked for this lecture", db)
        | none =>
          let lectureStart := lectureStartMs lecture
          let lectureEnd := lectureEndMs lecture
          let scanStart := lectureStart - 30 * MIN
          let scanEnd := lectureEnd + 15 * MIN
          if now < scanStart ∨ now > scanEnd then
            (.reject "QR code can only be scanned during lecture time (±30 minutes)", db)
          else
            (.accept qrCode lecture, db)

/-- `QRCodeService.validateQRCode(code, studentId)` at instant `now`
under mongoose semantics. The whole body runs inside a try/catch; the
CastError rejection from the `findOne` is caught and re-thrown as a
plain `new Error('QR code validation failed: ' + message)`, so every
call fails that way before any later check runs. The later checks are
embedded all the same (they mirror the source and would run were the
lookup ever to succeed). The second component is the store after the
call; no branch writes. -/
def validateQRCodeMongoose (db : DB) (code : String) (studentId : Nat) (now : Int) :
    Except JsError ValidationResult × DB :=
  match findQRMongoose db code now with
  | .error e => (.error (.generic ("QR code validation failed: " ++ e.message)), db)
  | .ok none =>
    (.ok (.reject "QR code is invalid, expired, or has reached maximum scans"), db)
  | .ok (some qrCode) =>
    match findLecture db qrCode.lectureId with
    | none => (.ok (.reject "Lecture is not available"), db)
    | some lecture =>
      if !lecture.isActive then
        (.ok (.reject "Lecture is not available"), db)
      else
        match findAttendanceByStudentLecture db studentId lecture.id with
        | some _ => (.ok (.reject "Attendance already marked for this lecture"), db)
        | none =>
          let lectureStart := lectureStartMs lecture
          let lectureEnd := lectureEndMs lecture
          let scanStart := lectureStart - 30 * MIN
          let scanEnd := lectureEnd + 15 * MIN
          if now < scanStart ∨ now > scanEnd then
            (.ok (.reject "QR code can only be scanned during lecture time (±30 minutes)"), db)
          else
            (.ok (.accept qrCode lecture), db)

/-! ### Classification (Attendance pre-save hook) -/

/-- The status computation of the Attendance pre-save hook: absent after
the lecture end, late strictly after start + 15 minutes, present
otherwise. -/
def classify (scanTime lectureStart lectureEnd : Int) : Status :=
  let lateThreshold := lectureStart + 15 * MIN
  if scanTime > lectureEnd then .absent
  else if scanTime > lateThreshold then .late
  else .present

/-- The Attendance pre-save hook: only for a new document, look up the
lecture; when found, recompute `status` from the scan time and the
lecture schedule; when not found (or the lookup fails), leave the
document unchanged and proceed (`next()` is called on every path). -/
def attendancePreSave (db : DB) (a : AttendanceDoc) (isNew : Bool) : AttendanceDoc :=
  if isNew then
    match findLecture db a.lectureId with
    | some lecture =>
      { a with status := classify a.scanTime (lectureStartMs lecture) (lectureEndMs lecture) }
    | none => a
  else a

/-! ### Store writes -/

/-- Message of the MongoDB duplicate key error raised by the unique
compound index `{ studentId: 1, lectureId: 1 }` on attendances. -/
def dupKeyMsg : String := "E11000 duplicate key error collection: attendances index: studentId_1_lectureId_1"

/-- Insert of a new Attendance document: the unique compound index on
`(studentId, lectureId)` makes the insert fail with a duplicate key
error when an entry for the pair already exists; otherwise the document
is appended. The write is all-or-nothing. -/
def insertAttendance (db : DB) (a : AttendanceDoc) : Except JsError DB :=
  match findAttendanceByStudentLecture db a.studentId a.lectureId with
  | some _ => .error (.mongoDuplicate dupKeyMsg)
  | none => .ok { db with attendances := db.attendances ++ [a] }

/-- `qrCode.save()` on an already-persisted document: replace the stored
document with the same id. -/
def saveQRDoc (db : DB) (q : QRCodeDoc) : DB :=
  { db with qrcodes := db.qrcodes.map (fun x => if x.id == q.id then q else x) }

/-- `lecture.save()` on an already-persisted document. -/
def saveLectureDoc (db : DB) (l : Lecture) : DB :=
  { db with lectures := db.lectures.map (fun x => if x.id == l.id then l else x) }

/-- `attendance.save()` on an already-persisted document. -/
def saveAttendanceDoc (db : DB) (a : AttendanceDoc) : DB :=
  { db with attendances := db.attendances.map (fun x => if x.id == a.id then a else x) }

/-! ### Attendance Recorder (`recordAttendance`) -/

/-- The denormalized success payload of `recordAttendance`. -/
structure RecordData where
  attendanceId : Nat
  lectureId : Nat
  unitName : String
  unitCode : String
  lecturerName : String
  scanTime : Int
  status : Status
  venue : String
  date : Int
  startTime : String
  endTime : String
deriving DecidableEq, Repr

/-- `QRCodeService.recordAttendance(validationResult, studentId, deviceInfo)`
at instant `now`, with `newId` the id the store assigns to the new
Attendance document. Builds the document with schema defaults
(`status = present`, `isVerified = true`), runs the pre-save hook, then
inserts it; on success increments the QR code scan count (deactivating
the code when the count reaches `maxScans`), saves it, and increments
the lecture attendance count. A thrown error is caught and re-thrown as
a plain `new Error(...)` wrapping only the message text; on that path
no write has happened. -/
def recordAttendance (db : DB) (qrCode : QRCodeDoc) (lecture : Lecture)
    (studentId newId : Nat) (now : Int) (deviceInfo : String) :
    Except JsError RecordData × DB :=
  let attendance0 : AttendanceDoc :=
    { id := newId, studentId := studentId, lectureId := lecture.id, qrCodeId := qrCode.id,
      scanTime := now, status := .present, isVerified := true, notes := "",
      deviceInfo := deviceInfo }
  let attendance := attendancePreSave db attendance0 true
  match insertAttendance db attendance with
  | .error e => (.error (.generic ("Failed to record attendance: " ++ e.message)), db)
  | .ok db1 =>
    let qr1 := { qrCode with scanCount := qrCode.scanCount + 1 }
    let qr2 := if qr1.scanCount ≥ qr1.maxScans then { qr1 with isActive := false } else qr1
    let db2 := saveQRDoc db1 qr2
    let lec1 := { lecture with attendanceCount := lecture.attendanceCount + 1 }
    let db3 := saveLectureDoc db2 lec1
    (.ok { attendanceId := attendance.id, lectureId := lecture.id,
           unitName := lecture.unitName, unitCode := lecture.unitCode,
           lecturerName := lecture.lecturerName, scanTime := attendance.scanTime,
           status := attendance.status, venue := lecture.venue, date := lecture.date,
           startTime := lecture.startTime, endTime := lecture.endTime }, db3)

/-- Whether a service result is a typed duplicate-key (conflict) error,
i.e. still carries the MongoDB duplicate discriminant (`code 11000`)
that the error-handling middleware maps to a duplicate response. -/
def errIsConflict : Except JsError RecordData → Bool
  | .error (.mongoDuplicate _) => true
  | _ => false

/-! ### The scan route: validate then record -/

/-- One `POST /student/scan` request: the code presented, the scanning
student, the id the store would assign to the new entry, and the instant
of the request. -/
structure ScanReq where
  code : String
  studentId : Nat
  newId : Nat
  now : Int
deriving DecidableEq, Repr

/-- The scan route body: validate, and only on accept call
`recordAttendance` with the validation snapshots. A rejection or a
record failure leaves the store as the operation returned it. -/
def scanStep (db : DB) (r : ScanReq) : DB :=
  match (validateQRCode db r.code r.studentId r.now).1 with
  | .reject _ => db
  | .accept qrCode lecture =>
    (recordAttendance db qrCode lecture r.studentId r.newId r.now "").2

/-- A sequence of validate-then-record operations. -/
def runScans (db : DB) (rs : List ScanReq) : DB := rs.foldl scanStep db

/-- The per-token budget condition: the scan count never exceeds the
scan limit, and a token whose count has reached the limit is no longer
active. -/
def tokenBudgetOk (q : QRCodeDoc) : Bool :=
  decide (q.scanCount ≤ q.maxScans) && (decide (q.scanCount < q.maxScans) || !q.isActive)

/-- The budget invariant over the whole store. -/
def tokenBudgetInv (db : DB) : Bool := db.qrcodes.all tokenBudgetOk

/-! ### Admission/Revocation Controller (`deactivateQRCode`) -/

/-- `QRCodeService.deactivateQRCode(qrCodeId)` at instant `now`: look
the token up by id (error when absent, wrapped by the catch), set
`isActive = false` and `expiresAt = now`, and save. -/
def deactivateQRCode (db : DB) (qrCodeId : Nat) (now : Int) : Except JsError (Bool × DB) :=
  match db.qrcodes.find? (fun q => q.id == qrCodeId) with
  | none => .error (.generic "Failed to deactivate QR code: QR code not found")
  | some qrCode =>
    .ok (true, saveQRDoc db { qrCode with isActive := false, expiresAt := now })

/-! ### Code Issuer (`generateQRCode`) -/

/-- The caller-supplied lecture data of `generateQRCode`. -/
structure LectureDraft where
  lecturerId : Nat
  lecturerName : String
  unitName : String
  unitCode : String
  date : Int
  startTime : String
  endTime : String
  venue : String
  totalStudents : Nat
deriving DecidableEq, Repr

/-- The mongoose validation run by `lecture.save()` before any write:
required string fields must be nonempty and the two times must match
the schema HH:MM regex. -/
def lectureValidationOk (d : LectureDraft) : Bool :=
  !d.lecturerName.isEmpty && !d.unitName.isEmpty && !d.unitCode.isEmpty && !d.venue.isEmpty
    && validTime d.startTime && validTime d.endTime

/-- The schema failure message for a malformed time field. -/
def lectureValidationMsg : String := "Please provide valid time format (HH:MM)"

/-- The mongoose validation step of `lecture.save()`: it runs before
any write and a failing draft raises a ValidationError
(`err.name === ValidationError`) carrying the schema message. -/
def lectureDraftValidate (d : LectureDraft) : Except JsError Unit :=
  if lectureValidationOk d then .ok () else .error (.validation lectureValidationMsg)

/-- Success payload of `generateQRCode`. -/
structure GenerateData where
  lectureId : Nat
  qrCodeId : Nat
  uniqueCode : String
  expiresAt : Int
  unitName : String
  unitCode : String
  date : Int
  startTime : String
  endTime : String
  venue : String
deriving DecidableEq, Repr

/-- `QRCodeService.generateQRCode(lectureData, durationMinutes)` at
instant `now`, with the fresh ids and the fresh random code passed
explicitly. `lecture.save()` validates before writing, so a malformed
draft fails before anything is persisted; the catch re-throws the
ValidationError as a plain `new Error('Failed to generate QR code: '
+ message)`, stripping the `err.name` discriminant. On the success path
the lecture is saved, the QR code is created with
`maxScans = totalStudents || 100` and saved, and the lecture is saved
again with the back-reference to the code. -/
def generateQRCode (db : DB) (lectureData : LectureDraft) (durationMinutes : Int)
    (now : Int) (freshLectureId freshQRCodeId : Nat) (uniqueCode : String) :
    Except JsError GenerateData × DB :=
  match lectureDraftValidate lectureData with
  | .error e => (.error (.generic ("Failed to generate QR code: " ++ e.message)), db)
  | .ok _ =>
    let lecture : Lecture :=
      { id := freshLectureId, lecturerId := lectureData.lecturerId,
        lecturerName := lectureData.lecturerName, unitName := lectureData.unitName,
        unitCode := lectureData.unitCode, date := lectureData.date,
        startTime := lectureData.startTime, endTime := lectureData.endTime,
        venue := lectureData.venue, qrCodeId := none, status := "scheduled",
        attendanceCount := 0, totalStudents := lectureData.totalStudents,
        isActive := true }
    let db1 := { db with lectures := db.lectures ++ [lecture] }
    let expiresAt := now + durationMinutes * MIN
    let qrCode : QRCodeDoc :=
      { id := freshQRCodeId, lectureId := freshLectureId, uniqueCode := uniqueCode,
        expiresAt := expiresAt, isActive := true, scanCount := 0,
        maxScans := if lectureData.totalStudents = 0 then 100 else lectureData.totalStudents }
    let db2 := { db1 with qrcodes := db1.qrcodes ++ [qrCode] }
    let lecture2 := { lecture with qrCodeId := some freshQRCodeId }
    let db3 := saveLectureDoc db2 lecture2
    (.ok { lectureId := freshLectureId, qrCodeId := freshQRCodeId,
           uniqueCode := uniqueCode, expiresAt := expiresAt,
           unitName := lecture.unitName, unitCode := lecture.unitCode,
           date := lecture.date, startTime := lecture.startTime,
           endTime := lecture.endTime, venue := lecture.venue }, db3)

/-- Whether an issuance result is a typed ValidationError, i.e. still
carries the `err.name` discriminant that the error-handling middleware
maps to a validation response. -/
def genErrIsValidation : Except JsError GenerateData → Bool
  | .error (.validation _) => true
  | _ => false

/-! ### Direct attendance creation (model-level `new Attendance(...).save()`) -/

/-- Creation of an Attendance document outside the scan route: run the
pre-save hook on the new document, then insert it. -/
def attendanceCreate (db : DB) (a : AttendanceDoc) : Except JsError DB :=
  insertAttendance db (attendancePreSave db a true)

/-! ### Manual status override (`PUT /attendance/:id/status`) -/

/-- Outcome of the override route. -/
inductive RouteOutcome
  | ok (data : AttendanceDoc)
  | notFound (msg : String)
  | forbidden (msg : String)
  | fault (msg : String)
deriving DecidableEq, Repr

/-- The override route body: find the entry (404 when absent), resolve
its lecture for the ownership check (a missing lecture makes the
null-dereference throw into the catch), reject a non-owner with 403,
otherwise set `status` to the supplied value, optionally set `notes`,
set `isVerified = false`, and save. The save is not a new document, so
the pre-save hook leaves the document as written. -/
def updateAttendanceStatus (db : DB) (attendanceId reqUserId : Nat)
    (newStatus : Status) (notes : Option String) : RouteOutcome × DB :=
  match db.attendances.find? (fun a => a.id == attendanceId) with
  | none => (.notFound "Attendance record not found", db)
  | some attendance =>
    match findLecture db attendance.lectureId with
    | none => (.fault "Cannot read properties of null", db)
    | some lecture =>
      if lecture.lecturerId ≠ reqUserId then
        (.forbidden "Access denied to this attendance record", db)
      else
        let a1 := { attendance with status := newStatus }
        let a2 := match notes with
          | some n => { a1 with notes := n }
          | none => a1
        let a3 := { a2 with isVerified := false }
        let a4 := attendancePreSave db a3 false
        (.ok a4, saveAttendanceDoc db a4)

/-- Modelled from the spec: the classification rule as section 4.3
words it — `scanTimestamp > sessionEnd` gives absent,
`sessionStart + 15min < scanTimestamp ≤ sessionEnd` gives late,
otherwise present. Used only to compare the code's `classify` against
the spec's wording. -/
def classifySpec (scanTime sessionStart sessionEnd : Int) : Status :=
  if scanTime > sessionEnd then .absent
  else if sessionStart + 15 * MIN < scanTime ∧ scanTime ≤ sessionEnd then .late
  else .present

/-! ### Concrete fixtures for witnesses and counterexamples

A lecture on epoch day 0 from 09:00 to 10:00 (start instant 32400000 ms,
end instant 36000000 ms), and tokens over it in various states. -/

/-- A 09:00-10:00 lecture on epoch day 0. -/
def lecA : Lecture :=
  { id := 1, lecturerId := 9, lecturerName := "Dr. A", unitName := "Databases",
    unitCode := "CS1", date := 0, startTime := "09:00", endTime := "10:00",
    venue := "LT-1", qrCodeId := some 1, status := "ongoing", attendanceCount := 0,
    totalStudents := 5, isActive := true }

/-- A fresh token for `lecA`: unexpired, active, no scans, limit 2. -/
def qrFresh : QRCodeDoc :=
  { id := 1, lectureId := 1, uniqueCode := "tok-1", expiresAt := 86400000,
    isActive := true, scanCount := 0, maxScans := 2 }

/-- An exhausted token for `lecA`: still active and unexpired, but its
scan count already equals its scan limit. -/
def qrExhausted : QRCodeDoc :=
  { id := 1, lectureId := 1, uniqueCode := "tok-1", expiresAt := 86400000,
    isActive := true, scanCount := 5, maxScans := 5 }

/-- Store holding `lecA` and the exhausted token. -/
def dbExhausted : DB := { lectures := [lecA], qrcodes := [qrExhausted], attendances := [] }

/-- Store holding `lecA` and the fresh token. -/
def dbFresh : DB := { lectures := [lecA], qrcodes := [qrFresh], attendances := [] }

/-- An attendance entry already recorded for student 7 at `lecA`. -/
def attExisting : AttendanceDoc :=
  { id := 100, studentId := 7, lectureId := 1, qrCodeId := 1, scanTime := 32500000,
    status := .present, isVerified := true, notes := "", deviceInfo := "" }

/-- Store in which student 7 already has an entry for `lecA`. -/
def dbWithEntry : DB :=
  { lectures := [lecA], qrcodes := [qrFresh], attendances := [attExisting] }

/-- Store holding only the fresh token (for revocation). -/
def dbRevoke : DB := { lectures := [], qrcodes := [qrFresh], attendances := [] }

/-- `dbRevoke` after one revocation at instant 100. -/
def dbRevokedOnce : DB :=
  { lectures := [], attendances := [],
    qrcodes := [{ id := 1, lectureId := 1, uniqueCode := "tok-1", expiresAt := 100,
                  isActive := false, scanCount := 0, maxScans := 2 }] }

/-- A draft whose start time does not match the schema regex. -/
def draftBadStart : LectureDraft :=
  { lecturerId := 9, lecturerName := "Dr. A", unitName := "Databases", unitCode := "CS1",
    date := 0, startTime := "25:00", endTime := "10:00", venue := "LT-1",
    totalStudents := 0 }

/-- An attendance entry whose lecture id resolves to nothing. -/
def attOrphan : AttendanceDoc :=
  { id := 200, studentId := 8, lectureId := 42, qrCodeId := 1, scanTime := 40000000,
    status := .present, isVerified := true, notes := "", deviceInfo := "" }

/-- Three scan requests against the fresh token of limit 2: two distinct
students inside the window, then a third once the budget is gone. -/
def scansA : List ScanReq :=
  [⟨"tok-1", 7, 100, 32500000⟩, ⟨"tok-1", 8, 101, 33400000⟩, ⟨"tok-1", 11, 102, 33500000⟩]

/-! ## Theorems -/

/-- Under mongoose semantics every validation call fails the same way:
the cast of the filter operand rejects before any check runs, and the
service catch re-throws the message wrapped in a plain Error. -/
theorem validateQRCodeMongoose_faults (db : DB) (code : String) (studentId : Nat) (now : Int) :
    (validateQRCodeMongoose db code studentId now).1
      = .error (.generic ("QR code validation failed: " ++ castErrorMsg)) := rfl

/-- Claim C2. The spec requires a token whose consumption counter has
reached its consumption limit to be rejected with the
invalid/expired/exhausted reason even when it exists, is active and is
unexpired. The code delivers no such rejection: mongoose casts the
`$lt` operand `"$maxScans"` against the `Number` path `scanCount`, the
cast fails, the `findOne` rejects with a CastError, and the service
catch re-throws it as a plain wrapped Error — so at a concrete
exhausted token (count 5, limit 5, active, unexpired, student with no
prior entry, instant inside the scan window) validation faults instead
of returning the claimed Reject (and in particular never examines the
counter at all). -/
theorem C2_exhausted_token_faults :
    qrExhausted.scanCount ≥ qrExhausted.maxScans
  ∧ qrExhausted.isActive = true
  ∧ (34200000 : Int) < qrExhausted.expiresAt
  ∧ (validateQRCodeMongoose dbExhausted "tok-1" 7 34200000).1
      = .error (.generic ("QR code validation failed: " ++ castErrorMsg))
  ∧ (validateQRCodeMongoose dbExhausted "tok-1" 7 34200000).1
      ≠ .ok (ValidationResult.reject "QR code is invalid, expired, or has reached maximum scans") :=
  ⟨by decide, rfl, by decide,
    validateQRCodeMongoose_faults dbExhausted "tok-1" 7 34200000,
    by rw [validateQRCodeMongoose_faults dbExhausted "tok-1" 7 34200000]; simp⟩

/-- Claim C4, counterexample. For a 09:00-09:10 session on epoch day 0
(start 32400000 ms, end 33000000 ms) a scan at exactly the session end
is classified present by the code, not late: the claim's clause "a scan
at exactly sessionEnd is late" fails when the session ends within 15
minutes of its start. -/
theorem C4_counterexample :
    classify 33000000 32400000 33000000 ≠ Status.late
  ∧ classify 33000000 32400000 33000000 = Status.present := by decide

/-- Claim C4, amended. Classification is the stated pure function of
scan time, session start and session end and agrees with the spec's
piecewise rule; a scan at exactly start + 15 minutes is present
whenever that instant lies within the session, and a scan at exactly
the session end is late provided the session end lies strictly after
start + 15 minutes. -/
theorem C4_classification (scanTime sessionStart sessionEnd : Int) :
    classify scanTime sessionStart sessionEnd = classifySpec scanTime sessionStart sessionEnd
  ∧ (sessionStart + 15 * MIN ≤ sessionEnd →
      classify (sessionStart + 15 * MIN) sessionStart sessionEnd = .present)
  ∧ (sessionStart + 15 * MIN < sessionEnd →
      classify sessionEnd sessionStart sessionEnd = .late) := by
  refine ⟨?_, ?_, ?_⟩
  · simp only [classify, classifySpec]
    by_cases h1 : scanTime > sessionEnd
    · simp only [if_pos h1]
    · by_cases h2 : scanTime > sessionStart + 15 * MIN
      · have hc : sessionStart + 15 * MIN < scanTime ∧ scanTime ≤ sessionEnd :=
          ⟨h2, by omega⟩
        simp only [if_neg h1, if_pos h2, if_pos hc]
      · have hc : ¬(sessionStart + 15 * MIN < scanTime ∧ scanTime ≤ sessionEnd) :=
          fun hcc => h2 hcc.1
        simp only [if_neg h1, if_neg h2, if_neg hc]
  · intro h
    simp only [classify]
    split_ifs <;> first | rfl | omega
  · intro h
    simp only [classify]
    split_ifs <;> first | rfl | omega

/-- Witness for C4: at a 09:00-10:00-shaped session (start 0, end
3600000 ms) the refinement holds and both boundary classifications are
as amended. -/
theorem C4_classification_witness :
    classify 0 0 3600000 = classifySpec 0 0 3600000
  ∧ classify (0 + 15 * MIN) 0 3600000 = .present
  ∧ classify 3600000 0 3600000 = .late :=
  ⟨(C4_classification 0 0 3600000).1,
    (C4_classification 0 0 3600000).2.1 (by decide),
    (C4_classification 0 0 3600000).2.2 (by decide)⟩

/-- Claim C5. The claim (matching the window arithmetic and the
source's own comment at the bottom of `validateQRCode`) says a scan at
exactly sessionStart − 30 minutes is accepted and one strictly outside
the window is rejected with the scan-window reason. The program does
neither: the window check is unreachable, because the validation
`findOne` fails with the CastError of the broken exhaustion clause on
every call. At the fresh valid token over the 09:00-10:00 lecture, a
scan at exactly 08:30:00 (instant 30600000) and a scan one second
earlier both fault with the wrapped CastError — no acceptance, and no
window-reason rejection. -/
theorem C5_boundary_scan_faults :
    (validateQRCodeMongoose dbFresh "tok-1" 7 30600000).1
        = .error (.generic ("QR code validation failed: " ++ castErrorMsg))
  ∧ (validateQRCodeMongoose dbFresh "tok-1" 7 30599000).1
        = .error (.generic ("QR code validation failed: " ++ castErrorMsg))
  ∧ (validateQRCodeMongoose dbFresh "tok-1" 7 30600000).1
        ≠ .ok (ValidationResult.accept qrFresh lecA) :=
  ⟨validateQRCodeMongoose_faults dbFresh "tok-1" 7 30600000,
    validateQRCodeMongoose_faults dbFresh "tok-1" 7 30599000,
    by rw [validateQRCodeMongoose_faults dbFresh "tok-1" 7 30600000]; simp⟩

/-- Claim C6. `validateQRCode` is a pure check: whatever it returns,
the store after the call is the store before it — in particular a
rejected duplicate leaves every token counter and every document
unchanged. -/
theorem C6_validate_is_pure (db : DB) (code : String) (studentId : Nat) (now : Int) :
    (validateQRCode db code studentId now).2 = db := by
  unfold validateQRCode
  repeat' first | rfl | split | dsimp only

/-- Claim C8, counterexample. Issuing with start time "25:00" over the
single-token store fails and persists nothing, but not *with a
ValidationError* as the claim states: the service catch re-throws the
mongoose ValidationError as a plain wrapped Error, stripping the
`err.name` discriminant (the same stripping that forced the C3
correction), so the surfaced failure is a generic error. -/
theorem C8_counterexample :
    (generateQRCode dbRevoke draftBadStart 60 0 5 6 "code-x").1
        = .error (.generic ("Failed to generate QR code: " ++ lectureValidationMsg))
  ∧ genErrIsValidation (generateQRCode dbRevoke draftBadStart 60 0 5 6 "code-x").1 = false
  ∧ (generateQRCode dbRevoke draftBadStart 60 0 5 6 "code-x").2 = dbRevoke :=
  ⟨rfl, rfl, rfl⟩

/-- Claim C8, amended. Issuing with a start time that fails the schema
regex (for example "25:00") fails before anything is persisted: the
mongoose validation step raises a ValidationError, the service catch
re-throws it as a generic wrapped Error ('Failed to generate QR code: '
plus the schema message) with the discriminant stripped, and the store
after the failed issuance is exactly the store before it — no session,
no token, no orphan, and no success returned. -/
theorem C8_malformed_issue (db : DB) (d : LectureDraft) (durationMinutes now : Int)
    (freshLectureId freshQRCodeId : Nat) (uniqueCode : String)
    (h : validTime d.startTime = false) :
    lectureDraftValidate d = .error (.validation lectureValidationMsg)
  ∧ (generateQRCode db d durationMinutes now freshLectureId freshQRCodeId uniqueCode).1
        = .error (.generic ("Failed to generate QR code: " ++ lectureValidationMsg))
  ∧ (generateQRCode db d durationMinutes now freshLectureId freshQRCodeId uniqueCode).2 = db := by
  have hv : lectureValidationOk d = false := by
    simp [lectureValidationOk, h]
  have hval : lectureDraftValidate d = .error (.validation lectureValidationMsg) := by
    unfold lectureDraftValidate
    rw [hv]
    rfl
  refine ⟨hval, ?_, ?_⟩
  · unfold generateQRCode
    rw [hval]
    rfl
  · unfold generateQRCode
    rw [hval]

/-- Witness for C8 amended: issuing with start time "25:00" over the
single-token store raises the ValidationError inside the save, surfaces
it as the generic wrapped message, and leaves the store unchanged. -/
theorem C8_malformed_issue_witness :
    validTime "25:00" = false
  ∧ lectureDraftValidate draftBadStart = .error (.validation lectureValidationMsg)
  ∧ (generateQRCode dbRevoke draftBadStart 60 0 5 6 "code-x").1
      = .error (.generic ("Failed to generate QR code: " ++ lectureValidationMsg))
  ∧ (generateQRCode dbRevoke draftBadStart 60 0 5 6 "code-x").2 = dbRevoke :=
  ⟨by decide,
    (C8_malformed_issue dbRevoke draftBadStart 60 0 5 6 "code-x" (by decide)).1,
    (C8_malformed_issue dbRevoke draftBadStart 60 0 5 6 "code-x" (by decide)).2.1,
    (C8_malformed_issue dbRevoke draftBadStart 60 0 5 6 "code-x" (by decide)).2.2⟩

/-- Claim C9. When the lecture referenced by a new attendance entry is
not found at classification time, the pre-save hook leaves the document
untouched and creation still succeeds: the entry is persisted exactly
as built, so a document carrying the schema default keeps status
present, and no error is surfaced. -/
theorem C9_missing_lecture_fallback (db : DB) (a : AttendanceDoc)
    (hlec : findLecture db a.lectureId = none)
    (hdup : findAttendanceByStudentLecture db a.studentId a.lectureId = none)
    (hdef : a.status = Status.present) :
    attendanceCreate db a = .ok { db with attendances := db.attendances ++ [a] }
  ∧ (attendancePreSave db a true).status = Status.present := by
  have hp : attendancePreSave db a true = a := by
    unfold attendancePreSave
    rw [if_pos rfl, hlec]
  constructor
  · unfold attendanceCreate
    rw [hp]
    unfold insertAttendance
    rw [hdup]
  · rw [hp, hdef]

/-- Witness for C9: an entry whose lecture id 42 resolves to nothing is
persisted as-is with status present. -/
theorem C9_missing_lecture_fallback_witness :
    findLecture dbWithEntry attOrphan.lectureId = none
  ∧ attendanceCreate dbWithEntry attOrphan
      = .ok { dbWithEntry with attendances := dbWithEntry.attendances ++ [attOrphan] }
  ∧ (attendancePreSave dbWithEntry attOrphan true).status = Status.present :=
  ⟨by decide,
    (C9_missing_lecture_fallback dbWithEntry attOrphan (by decide) (by decide) (by decide)).1,
    (C9_missing_lecture_fallback dbWithEntry attOrphan (by decide) (by decide) (by decide)).2⟩

/-- The pre-save hook only rewrites `status`: the subject reference is
unchanged. -/
theorem attendancePreSave_studentId (db : DB) (a : AttendanceDoc) (isNew : Bool) :
    (attendancePreSave db a isNew).studentId = a.studentId := by
  unfold attendancePreSave
  split
  · split <;> rfl
  · rfl

/-- The pre-save hook only rewrites `status`: the session reference is
unchanged. -/
theorem attendancePreSave_lectureId (db : DB) (a : AttendanceDoc) (isNew : Bool) :
    (attendancePreSave db a isNew).lectureId = a.lectureId := by
  unfold attendancePreSave
  split
  · split <;> rfl
  · rfl

/-- Claim C3, counterexample. When an entry for (student 7, lecture 1)
already exists at write time, `recordAttendance` fails as a *generic*
wrapped error: the catch re-throws `new Error('Failed to record
attendance: ' + message)`, which no longer carries the duplicate-key
discriminant (code 11000) that would make it a typed conflict
rejection distinguishable from a server fault. The existing entry is
not overwritten (the store is unchanged), but the "typed
business-rule rejection distinct from a server fault" part of the
claim is false at this input. -/
theorem C3_counterexample :
    (recordAttendance dbWithEntry qrFresh lecA 7 101 33000000 "").1
        = .error (.generic ("Failed to record attendance: " ++ dupKeyMsg))
  ∧ errIsConflict (recordAttendance dbWithEntry qrFresh lecA 7 101 33000000 "").1 = false
  ∧ (recordAttendance dbWithEntry qrFresh lecA 7 101 33000000 "").2 = dbWithEntry :=
  ⟨rfl, rfl, rfl⟩

/-- Claim C3, amended. When recording would violate the
at-most-one-entry-per-(subject, session) invariant, the insert fails,
the existing entry is not overwritten and the store is left unchanged —
but the failure surfaces as a generic wrapped error message with the
duplicate-key discriminant stripped, not as a typed ConflictError
distinct from a server fault. -/
theorem C3_duplicate_record (db : DB) (qrCode : QRCodeDoc) (lecture : Lecture)
    (studentId newId : Nat) (now : Int) (deviceInfo : String) (e : AttendanceDoc)
    (hdup : findAttendanceByStudentLecture db studentId lecture.id = some e) :
    (recordAttendance db qrCode lecture studentId newId now deviceInfo).1
        = .error (.generic ("Failed to record attendance: " ++ dupKeyMsg))
  ∧ (recordAttendance db qrCode lecture studentId newId now deviceInfo).2 = db := by
  unfold recordAttendance insertAttendance
  dsimp only
  rw [attendancePreSave_studentId, attendancePreSave_lectureId]
  dsimp only
  rw [hdup]
  exact ⟨rfl, rfl⟩

/-- Witness for C3 amended: a second record for student 7 at lecture 1
fails with the wrapped duplicate message and leaves the store intact. -/
theorem C3_duplicate_record_witness :
    (recordAttendance dbWithEntry qrFresh lecA 7 102 33100000 "ua").1
        = .error (.generic ("Failed to record attendance: " ++ dupKeyMsg))
  ∧ (recordAttendance dbWithEntry qrFresh lecA 7 102 33100000 "ua").2 = dbWithEntry :=
  ⟨(C3_duplicate_record dbWithEntry qrFresh lecA 7 102 33100000 "ua" attExisting rfl).1,
    (C3_duplicate_record dbWithEntry qrFresh lecA 7 102 33100000 "ua" attExisting rfl).2⟩

/-- Replacing the stored document found by an id lookup makes the same
lookup return the replacement, provided the replacement keeps the id. -/
theorem find_map_replace (l : List QRCodeDoc) (i : Nat) (q q' : QRCodeDoc)
    (hfind : l.find? (fun x => x.id == i) = some q) (hid : q'.id = q.id) :
    (l.map (fun x => if x.id == q'.id then q' else x)).find? (fun x => x.id == i)
      = some q' := by
  have hqid : q.id = i := by simpa using List.find?_some hfind
  induction l with
  | nil => simp at hfind
  | cons a t ih =>
    by_cases ha : a.id = i
    · have haq : a = q := by
        rw [List.find?_cons_of_pos _ (by simpa using ha)] at hfind
        simpa using hfind
      subst haq
      simp only [List.map_cons]
      rw [if_pos (by simp [hid, hqid, ha])]
      exact List.find?_cons_of_pos _ (by simp [hid, hqid])
    · have hfind' : t.find? (fun x => x.id == i) = some q := by
        rwa [List.find?_cons_of_neg _ (by simpa using ha)] at hfind
      simp only [List.map_cons]
      rw [if_neg (by simp [hid, hqid]; exact ha)]
      rw [List.find?_cons_of_neg _ (by simpa using ha)]
      exact ih hfind'

/-- Two successive in-place saves with the same id collapse to the
second save. -/
theorem saveQRDoc_saveQRDoc (db : DB) (a b : QRCodeDoc) (hid : b.id = a.id) :
    saveQRDoc (saveQRDoc db a) b = saveQRDoc db b := by
  unfold saveQRDoc
  simp only [List.map_map]
  congr 1
  congr 1
  funext x
  simp only [Function.comp_apply]
  by_cases hx : x.id = a.id
  · simp [hx, hid]
  · simp [hx, hid]

/-- Claim C7, counterexample. Revoking the single token at instant 100
and then revoking it again at instant 200 does not reproduce the
once-revoked state: the second revocation moves `expiresAt` from 100 to
200, so double revocation is not identical to single revocation and
revoking an already-inactive token is not a strict no-op. -/
theorem C7_counterexample :
    deactivateQRCode dbRevoke 1 100 = .ok (true, dbRevokedOnce)
  ∧ deactivateQRCode dbRevokedOnce 1 200
      = .ok (true, { dbRevokedOnce with
          qrcodes := [{ id := 1, lectureId := 1, uniqueCode := "tok-1", expiresAt := 200,
                        isActive := false, scanCount := 0, maxScans := 2 }] })
  ∧ ({ dbRevokedOnce with
        qrcodes := [{ id := 1, lectureId := 1, uniqueCode := "tok-1", expiresAt := 200,
                      isActive := false, scanCount := 0, maxScans := 2 }] } : DB)
      ≠ dbRevokedOnce :=
  ⟨rfl, rfl, by decide⟩

/-- Claim C7, amended. `deactivateQRCode` sets the token inactive and
sets its expiration to the revocation instant, and succeeds on an
already-inactive token (not an error); revoking twice at the same
instant yields a state identical to revoking once, while a second
revocation at a later instant leaves the token inactive but advances
its expiration to the later instant. -/
theorem C7_revoke (db : DB) (qrCodeId : Nat) (t1 t2 : Int) (q : QRCodeDoc)
    (hfind : db.qrcodes.find? (fun x => x.id == qrCodeId) = some q) :
    deactivateQRCode db qrCodeId t1
        = .ok (true, saveQRDoc db { q with isActive := false, expiresAt := t1 })
  ∧ deactivateQRCode (saveQRDoc db { q with isActive := false, expiresAt := t1 }) qrCodeId t2
        = .ok (true, saveQRDoc db { q with isActive := false, expiresAt := t2 }) := by
  constructor
  · unfold deactivateQRCode
    rw [hfind]
  · unfold deactivateQRCode
    have h2 : (saveQRDoc db { q with isActive := false, expiresAt := t1 }).qrcodes.find?
        (fun x => x.id == qrCodeId) = some { q with isActive := false, expiresAt := t1 } := by
      unfold saveQRDoc
      exact find_map_replace db.qrcodes qrCodeId q _ hfind rfl
    rw [h2]
    exact congrArg (fun s => Except.ok (true, s))
      (saveQRDoc_saveQRDoc db { q with isActive := false, expiresAt := t1 }
        { q with isActive := false, expiresAt := t2 } rfl)

/-- Witness for C7 amended: revoking the single-token store at instant
100 and again at the same instant 100 reproduces the identical state. -/
theorem C7_revoke_witness :
    deactivateQRCode dbRevoke 1 100
        = .ok (true, saveQRDoc dbRevoke { qrFresh with isActive := false, expiresAt := 100 })
  ∧ deactivateQRCode (saveQRDoc dbRevoke { qrFresh with isActive := false, expiresAt := 100 }) 1 100
        = .ok (true, saveQRDoc dbRevoke { qrFresh with isActive := false, expiresAt := 100 }) :=
  ⟨(C7_revoke dbRevoke 1 100 100 qrFresh rfl).1,
    (C7_revoke dbRevoke 1 100 100 qrFresh rfl).2⟩

/-- Claim C10. An administrative override on an existing entry stores
the supplied status, sets `isVerified` to false (the field defaults to
true at creation), and — because the pre-save hook recomputes the
classification only for new documents — the save performed by the
override (and any later non-new save of the stored document) leaves the
overridden status in place rather than restoring the computed one. -/
theorem C10_manual_override (db : DB) (attendanceId reqUserId : Nat)
    (newStatus : Status) (n : String) (a : AttendanceDoc) (lec : Lecture)
    (hfind : db.attendances.find? (fun x => x.id == attendanceId) = some a)
    (hlec : findLecture db a.lectureId = some lec)
    (hown : lec.lecturerId = reqUserId) :
    updateAttendanceStatus db attendanceId reqUserId newStatus (some n)
        = (.ok { a with status := newStatus, notes := n, isVerified := false },
           saveAttendanceDoc db { a with status := newStatus, notes := n, isVerified := false })
  ∧ ({ a with status := newStatus, notes := n, isVerified := false } : AttendanceDoc).status
        = newStatus
  ∧ ({ a with status := newStatus, notes := n, isVerified := false } : AttendanceDoc).isVerified
        = false
  ∧ attendancePreSave db { a with status := newStatus, notes := n, isVerified := false } false
        = { a with status := newStatus, notes := n, isVerified := false } := by
  refine ⟨?_, rfl, rfl, rfl⟩
  unfold updateAttendanceStatus
  rw [hfind]
  dsimp only
  rw [hlec]
  dsimp only
  rw [if_neg (by simp [hown])]
  rfl

/-- Witness for C10: lecturer 9 overrides the recorded entry 100 to
excused with a note; the stored entry carries the override and the
non-new save does not restore the computed classification. -/
theorem C10_manual_override_witness :
    updateAttendanceStatus dbWithEntry 100 9 Status.excused (some "sick")
        = (.ok { attExisting with status := Status.excused, notes := "sick", isVerified := false },
           saveAttendanceDoc dbWithEntry
             { attExisting with status := Status.excused, notes := "sick", isVerified := false })
  ∧ ({ attExisting with status := Status.excused, notes := "sick", isVerified := false } : AttendanceDoc).status
        = Status.excused
  ∧ ({ attExisting with status := Status.excused, notes := "sick", isVerified := false } : AttendanceDoc).isVerified
        = false
  ∧ attendancePreSave dbWithEntry
        { attExisting with status := Status.excused, notes := "sick", isVerified := false } false
        = { attExisting with status := Status.excused, notes := "sick", isVerified := false } :=
  C10_manual_override dbWithEntry 100 9 Status.excused "sick" attExisting lecA rfl rfl rfl

/-- Inversion: an accepting validation returns exactly the token the
validation query found. -/
theorem validate_accept_findQR (db : DB) (code : String) (studentId : Nat) (now : Int)
    (qr : QRCodeDoc) (lec : Lecture)
    (h : (validateQRCode db code studentId now).1 = ValidationResult.accept qr lec) :
    findQR db code now = some qr := by
  unfold validateQRCode at h
  cases hf : findQR db code now with
  | none =>
    rw [hf] at h
    exact absurd h (by simp)
  | some q =>
    rw [hf] at h
    dsimp only at h
    cases hl : findLecture db q.lectureId with
    | none =>
      rw [hl] at h
      exact absurd h (by simp)
    | some lecture =>
      rw [hl] at h
      dsimp only at h
      split at h
      · exact absurd h (by simp)
      · cases ha : findAttendanceByStudentLecture db studentId lecture.id with
        | some a =>
          rw [ha] at h
          exact absurd h (by simp)
        | none =>
          rw [ha] at h
          dsimp only at h
          split at h
          · exact absurd h (by simp)
          · have h' : ValidationResult.accept q lecture = ValidationResult.accept qr lec := h
            injection h' with h1 h2
            rw [h1]

/-- Unpacking the budget invariant at a member token: the count is
bounded by the limit, and an active token is strictly below it. -/
theorem tokenBudgetInv_mem (db : DB) (q : QRCodeDoc)
    (hinv : tokenBudgetInv db = true) (hmem : q ∈ db.qrcodes) :
    q.scanCount ≤ q.maxScans ∧ (q.isActive = true → q.scanCount < q.maxScans) := by
  have hq := List.all_eq_true.mp hinv q hmem
  simp only [tokenBudgetOk, Bool.and_eq_true, Bool.or_eq_true, decide_eq_true_eq,
    Bool.not_eq_true'] at hq
  refine ⟨hq.1, fun hact => ?_⟩
  rcases hq.2 with hlt | hoff
  · exact hlt
  · rw [hact] at hoff
    exact absurd hoff (by simp)

/-- Replacing a document that satisfies a per-document predicate inside
a list in which every document satisfies it preserves the list-wide
predicate. -/
theorem all_map_keep (p : QRCodeDoc → Bool) (l : List QRCodeDoc) (q : QRCodeDoc)
    (hl : l.all p = true) (hq : p q = true) :
    (l.map (fun x => if x.id == q.id then q else x)).all p = true := by
  rw [List.all_eq_true] at *
  intro y hy
  rcases List.mem_map.mp hy with ⟨x, hxmem, hxy⟩
  by_cases hid : (x.id == q.id) = true
  · rw [if_pos hid] at hxy
    rw [← hxy]
    exact hq
  · rw [if_neg hid] at hxy
    rw [← hxy]
    exact hl x hxmem

/-- One validate-then-record operation preserves the token budget
invariant: a rejection changes nothing, and an accepted scan increments
the found token's count by one — which the invariant plus the query's
`isActive` requirement bound by the limit — while deactivating the
token in the same save when the count reaches the limit. -/
theorem scanStep_budget (db : DB) (r : ScanReq) (hinv : tokenBudgetInv db = true) :
    tokenBudgetInv (scanStep db r) = true := by
  unfold scanStep
  cases hv : (validateQRCode db r.code r.studentId r.now).1 with
  | reject m => exact hinv
  | accept qr lec =>
    have hfq : findQR db r.code r.now = some qr :=
      validate_accept_findQR db r.code r.studentId r.now qr lec hv
    have hfq' : db.qrcodes.find? (fun q => qrQueryMatch q r.code r.now) = some qr := hfq
    have hmem : qr ∈ db.qrcodes := List.mem_of_find?_eq_some hfq'
    have hmatch : qrQueryMatch qr r.code r.now = true := by
      have hx := List.find?_some hfq'
      simpa using hx
    have hact : qr.isActive = true := by
      simp only [qrQueryMatch, Bool.and_eq_true] at hmatch
      exact hmatch.1.2
    have hlt : qr.scanCount < qr.maxScans := (tokenBudgetInv_mem db qr hinv hmem).2 hact
    unfold recordAttendance insertAttendance
    dsimp only
    split
    · exact hinv
    · next db1 heq =>
      have hq1 : db1.qrcodes = db.qrcodes := by
        split at heq
        · simp at heq
        · rw [Except.ok.injEq] at heq
          rw [← heq]
      unfold tokenBudgetInv saveLectureDoc saveQRDoc
      dsimp only
      rw [hq1]
      apply all_map_keep
      · exact hinv
      · split
        · next hge =>
          simp only [tokenBudgetOk, Bool.and_eq_true, Bool.or_eq_true, decide_eq_true_eq,
            Bool.not_eq_true']
          exact ⟨by omega, Or.inr trivial⟩
        · next hno =>
          simp only [tokenBudgetOk, Bool.and_eq_true, Bool.or_eq_true, decide_eq_true_eq,
            Bool.not_eq_true']
          exact ⟨by omega, Or.inl (by omega)⟩

/-- Claim C1. Starting from any store satisfying the token budget
invariant (count bounded by limit, and count equal to limit only on an
inactive token), every sequence of validate-then-record operations
preserves it: no token's consumption counter ever exceeds its limit,
and the record operation in which a counter reaches the limit turns the
token's active flag off in that same operation. -/
theorem C1_token_budget (db : DB) (rs : List ScanReq) (hinv : tokenBudgetInv db = true) :
    tokenBudgetInv (runScans db rs) = true := by
  induction rs generalizing db with
  | nil => exact hinv
  | cons r rest ih => exact ih (scanStep db r) (scanStep_budget db r hinv)

/-- Witness for C1: the fresh limit-2 token store satisfies the
invariant, and still satisfies it after three scans (two admitted, the
third rejected on the deactivated token). -/
theorem C1_token_budget_witness :
    tokenBudgetInv dbFresh = true ∧ tokenBudgetInv (runScans dbFresh scansA) = true :=
  ⟨by decide, C1_token_budget dbFresh scansA (by decide)⟩

end AttendanceQR
